import Mathlib

/-!
Verification development for the synthetic-security-telemetry event
generation engine (files generators/base_generator.py,
generators/network_generator.py and config/generation_config.py).

The Python code is embedded shallowly:

* Naive datetimes are whole seconds since an epoch chosen to fall on a
  Monday at 00:00:00, so that Python's weekday() (Monday = 0) becomes
  division and remainder arithmetic.
* Every call into the random module (and into the faker library, the
  uuid module and the wall clock) is modelled as a value supplied by an
  explicit random-source structure, one field per draw site.
  random.randint(a, b) applied to a supplied value v is modelled as
  a + v % (b - a + 1), which is exactly the set of values the call can
  return; random.choice(lst) is modelled as indexing by a supplied
  value modulo the list length; random.random() is a supplied rational.
* Python dicts used as records become structures; the two dict keys
  that inject_threat_scenario probes but that network events never
  carry (bytes_transferred, file_path) are Option fields that
  generate_event always sets to none, mirroring key absence.
-/

/-! ## Time model -/

abbrev Time := Nat

def secsPerDay : Nat := 86400

/-- Python datetime.hour for the seconds-since-Monday-midnight model. -/
def hourOf (t : Time) : Nat := t % secsPerDay / 3600

/-- Python datetime.weekday(): Monday = 0, ..., Sunday = 6. -/
def weekday (t : Time) : Nat := t / secsPerDay % 7

/-- Python datetime.replace(hour=h, minute=m, second=s): keep the date,
overwrite the time of day. -/
def replaceHMS (t : Time) (h m s : Nat) : Time :=
  t / secsPerDay * secsPerDay + h * 3600 + m * 60 + s

/-- Python datetime.replace(hour=h, minute=m): keep the date and the
seconds component, overwrite hour and minute. -/
def replaceHM (t : Time) (h m : Nat) : Time :=
  t / secsPerDay * secsPerDay + h * 3600 + m * 60 + t % 60

/-! ## Random draw model -/

/-- random.randint(a, b) (both endpoints inclusive) fed with a raw draw v. -/
def randint (a b v : Nat) : Nat := a + v % (b - a + 1)

/-- random.choice(l) fed with a raw draw v.  Python raises on an empty
list; every call site in the engine samples a nonempty list, and the
lemmas below require nonemptiness where membership is claimed. -/
def pick [Inhabited α] (l : List α) (v : Nat) : α := l.getD (v % l.length) default

/-! ## Python dict primitives (string-keyed association lists) -/

/-- dict.get(k): first binding of key k, if any. -/
def alistFind (l : List (String × α)) (k : String) : Option α :=
  (l.find? (fun p => p.1 == k)).map (fun p => p.2)

/-- dict[k] = v: overwrite the binding of k, or append a new one. -/
def alistSet (l : List (String × α)) (k : String) (v : α) : List (String × α) :=
  if (l.find? (fun p => p.1 == k)).isSome then
    l.map (fun p => if p.1 == k then (k, v) else p)
  else
    l ++ [(k, v)]

/-! ## Configuration (config/generation_config.py) -/

structure OfficeLocation where
  city : String
  country : String
  timezone : String
  ip_range : String
  employees : Nat
deriving Repr, DecidableEq, Inhabited

structure ThreatLocation where
  city : String
  country : String
  threat_level : String
deriving Repr, DecidableEq, Inhabited

structure TimelineEntry where
  day : Int
  phase : String
  activities : List String
deriving Repr, DecidableEq, Inhabited

structure ScenarioConfig where
  name : String
  description : String
  duration_days : Int
  target_users : List String
  target_departments : List String
  target_systems : List String
  indicators : List (String × Bool)
  timeline : List TimelineEntry
deriving Repr, DecidableEq, Inhabited

structure Config where
  DEPARTMENTS : List String
  USER_ROLES : List (String × List String)
  SECURITY_CLEARANCES : List String
  OFFICE_LOCATIONS : List (String × OfficeLocation)
  THREAT_LOCATIONS : List ThreatLocation
  THREAT_INTEL_SOURCES : List String
  THREAT_SCENARIOS : List (String × ScenarioConfig)
deriving Inhabited

def DEPARTMENTS : List String :=
  ["Engineering", "Sales", "Marketing", "Finance", "HR", "Legal",
   "Operations", "Security", "IT", "Executive", "Support", "Research"]

def USER_ROLES : List (String × List String) :=
  [("Engineering", ["Software Engineer", "Senior Engineer", "Tech Lead", "Engineering Manager", "DevOps Engineer"]),
   ("Sales", ["Sales Rep", "Account Manager", "Sales Manager", "VP Sales"]),
   ("Marketing", ["Marketing Specialist", "Content Creator", "Marketing Manager", "VP Marketing"]),
   ("Finance", ["Accountant", "Financial Analyst", "Finance Manager", "CFO"]),
   ("HR", ["HR Coordinator", "Recruiter", "HR Manager", "VP HR"]),
   ("Legal", ["Legal Counsel", "Paralegal", "General Counsel"]),
   ("Operations", ["Operations Analyst", "Operations Manager", "VP Operations"]),
   ("Security", ["Security Analyst", "Security Engineer", "CISO"]),
   ("IT", ["IT Support", "System Administrator", "IT Manager", "CTO"]),
   ("Executive", ["CEO", "President", "VP"]),
   ("Support", ["Support Rep", "Senior Support", "Support Manager"]),
   ("Research", ["Researcher", "Data Scientist", "Research Manager"])]

def SECURITY_CLEARANCES : List String := ["none", "confidential", "secret", "top_secret"]

def OFFICE_LOCATIONS : List (String × OfficeLocation) :=
  [("headquarters",
    { city := "San Francisco", country := "United States",
      timezone := "America/Los_Angeles", ip_range := "10.1.0.0/16", employees := 500 }),
   ("east_coast",
    { city := "New York", country := "United States",
      timezone := "America/New_York", ip_range := "10.2.0.0/16", employees := 300 }),
   ("europe",
    { city := "London", country := "United Kingdom",
      timezone := "Europe/London", ip_range := "10.3.0.0/16", employees := 200 }),
   ("apac",
    { city := "Singapore", country := "Singapore",
      timezone := "Asia/Singapore", ip_range := "10.4.0.0/16", employees := 150 })]

def THREAT_LOCATIONS : List ThreatLocation :=
  [{ city := "Unknown", country := "Russia", threat_level := "high" },
   { city := "Unknown", country := "China", threat_level := "high" },
   { city := "Unknown", country := "North Korea", threat_level := "critical" },
   { city := "Tor Exit Node", country := "Various", threat_level := "medium" },
   { city := "Unknown", country := "Iran", threat_level := "high" }]

def THREAT_INTEL_SOURCES : List String :=
  ["VirusTotal", "AlienVault OTX", "ThreatCrowd", "IBM X-Force",
   "Recorded Future", "CrowdStrike", "FireEye", "Mandiant",
   "Symantec", "Kaspersky", "SANS ISC", "Abuse.ch"]

/-- THREAT_SCENARIOS entry phantom_exfiltrator. -/
def phantom_exfiltrator_config : ScenarioConfig :=
  { name := "The Phantom Exfiltrator",
    description := "APT actor using living-off-the-land techniques for data theft",
    duration_days := 45,
    target_users := ["jsmith", "alee", "mchen"],
    target_departments := ["Engineering", "Finance"],
    target_systems := [],
    indicators :=
      [("large_file_transfers", true), ("off_hours_access", true),
       ("unusual_destinations", true), ("privilege_escalation", true),
       ("lateral_movement", true)],
    timeline :=
      [{ day := 1, phase := "reconnaissance", activities := ["port_scanning", "dns_enumeration"] },
       { day := 7, phase := "initial_access", activities := ["phishing_email", "credential_theft"] },
       { day := 14, phase := "persistence", activities := ["backdoor_installation", "scheduled_tasks"] },
       { day := 21, phase := "lateral_movement", activities := ["credential_dumping", "remote_access"] },
       { day := 35, phase := "data_discovery", activities := ["file_enumeration", "database_queries"] },
       { day := 42, phase := "exfiltration", activities := ["data_compression", "encrypted_transfer"] }] }

/-- THREAT_SCENARIOS entry insider_threat.  The shipped configuration
defines no timeline key for it, so scenario_config.get with default []
yields the empty timeline. -/
def insider_threat_config : ScenarioConfig :=
  { name := "Disgruntled Employee",
    description := "Employee planning to steal data before leaving company",
    duration_days := 30,
    target_users := ["bwilson"],
    target_departments := ["Sales"],
    target_systems := [],
    indicators :=
      [("after_hours_access", true), ("bulk_downloads", true),
       ("access_to_unusual_files", true), ("external_storage_usage", true)],
    timeline := [] }

/-- THREAT_SCENARIOS entry supply_chain_attack (no target_users and no
timeline key in the shipped configuration, so both default to []). -/
def supply_chain_attack_config : ScenarioConfig :=
  { name := "Compromised Software Update",
    description := "Malicious code injected through software supply chain",
    duration_days := 60,
    target_users := [],
    target_departments := [],
    target_systems := ["build-server-01", "repo-server-02"],
    indicators :=
      [("unsigned_binaries", true), ("network_beaconing", true),
       ("process_injection", true), ("registry_modifications", true)],
    timeline := [] }

def THREAT_SCENARIOS : List (String × ScenarioConfig) :=
  [("phantom_exfiltrator", phantom_exfiltrator_config),
   ("insider_threat", insider_threat_config),
   ("supply_chain_attack", supply_chain_attack_config)]

/-- The configuration object the CLI driver hands to NetworkLogGenerator
(it imports config/generation_config.py wholesale). -/
def shippedConfig : Config :=
  { DEPARTMENTS := DEPARTMENTS,
    USER_ROLES := USER_ROLES,
    SECURITY_CLEARANCES := SECURITY_CLEARANCES,
    OFFICE_LOCATIONS := OFFICE_LOCATIONS,
    THREAT_LOCATIONS := THREAT_LOCATIONS,
    THREAT_INTEL_SOURCES := THREAT_INTEL_SOURCES,
    THREAT_SCENARIOS := THREAT_SCENARIOS }

/-! ## Threat intelligence pool (BaseSecurityGenerator._load_threat_indicators) -/

structure Indicator where
  indicator : String
  type : String
  threat_type : String
  confidence : ℚ
  source : String
deriving Repr, DecidableEq, Inhabited

/-- Raw draws consumed while building one indicator record: the
random.choice index for the threat type, the random.uniform confidence
value, and the random.choice index for the source. -/
structure IndicatorRand where
  ttPick : Nat
  conf : ℚ
  srcPick : Nat

/-- Raw draws consumed by _load_threat_indicators: one IndicatorRand per
malicious IP, per malicious domain and per generated hash, and the
fake.sha256() output for each of the 50 hash indicators. -/
structure LoadRand where
  ipR : Nat → IndicatorRand
  domR : Nat → IndicatorRand
  hashR : Nat → IndicatorRand
  hashVal : Nat → String

def malicious_ips : List String :=
  ["45.133.203.192", "185.220.101.32", "198.98.51.189",
   "103.253.27.108", "94.102.61.38", "178.128.83.165"]

def malicious_domains : List String :=
  ["evil-cdn.net", "malware-host.com", "phishing-site.org",
   "c2-server.info", "bad-actor.biz", "threat-domain.xyz"]

/-- BaseSecurityGenerator._load_threat_indicators.  The confidence draws
are random.uniform(0.7, 0.95) / (0.8, 0.98) / (0.85, 0.99); their values
are taken from the random source unconstrained since no claim concerns
them. -/
def load_threat_indicators (cfg : Config) (r : LoadRand) : List Indicator :=
  (malicious_ips.enum.map (fun p =>
    { indicator := p.2, type := "ip",
      threat_type := pick ["malware", "c2", "scanning", "botnet"] (r.ipR p.1).ttPick,
      confidence := (r.ipR p.1).conf,
      source := pick cfg.THREAT_INTEL_SOURCES (r.ipR p.1).srcPick }))
  ++ (malicious_domains.enum.map (fun p =>
    { indicator := p.2, type := "domain",
      threat_type := pick ["phishing", "c2", "malware"] (r.domR p.1).ttPick,
      confidence := (r.domR p.1).conf,
      source := pick cfg.THREAT_INTEL_SOURCES (r.domR p.1).srcPick }))
  ++ ((List.range 50).map (fun i =>
    { indicator := r.hashVal i, type := "hash",
      threat_type := pick ["malware", "ransomware", "trojan"] (r.hashR i).ttPick,
      confidence := (r.hashR i).conf,
      source := pick cfg.THREAT_INTEL_SOURCES (r.hashR i).srcPick }))

/-- The construction-time state of a NetworkLogGenerator: its config and
the threat-indicator list loaded in __init__. -/
structure Gen where
  config : Config
  threat_indicators : List Indicator

/-- A NetworkLogGenerator as the CLI driver builds it: the shipped
configuration module plus indicators loaded at construction. -/
def mkGen (lr : LoadRand) : Gen :=
  { config := shippedConfig, threat_indicators := load_threat_indicators shippedConfig lr }

/-- The threat_ips list generate_external_ip(malicious=True) samples:
indicators of type ip. -/
def threat_ip_list (g : Gen) : List String :=
  (g.threat_indicators.filter (fun i => i.type == "ip")).map (fun i => i.indicator)

/-- Raw draws for generate_external_ip: the random.choice index over
threat IPs, and the value the fake.ipv4() rejection loop settles on
(the loop keeps drawing until the address is neither private nor
loopback; the accepted address is modelled as supplied). -/
structure ExtIpRand where
  idx : Nat
  fallback : String

/-- BaseSecurityGenerator.generate_external_ip. -/
def generate_external_ip (g : Gen) (malicious : Bool) (r : ExtIpRand) : String :=
  if malicious && !(threat_ip_list g).isEmpty then
    pick (threat_ip_list g) r.idx
  else
    r.fallback

/-! ## Entity registry state and identity accessor -/

structure User where
  user_id : String
  username : String
  email : String
  first_name : String
  last_name : String
  department : String
  title : String
  employee_type : String
  security_clearance : String
  location : String
deriving Repr, DecidableEq, Inhabited

/-- The mutable caches of BaseSecurityGenerator (the asset cache is
untouched by the network-event paths under study). -/
structure GenState where
  user_cache : List (String × List User)
  ip_cache : List (String × List String)
deriving Inhabited

/-- Raw draws consumed while building one user record. -/
structure UserRand where
  firstName : String
  lastName : String
  titlePick : Nat
  empTypePick : Nat
  clearancePick : Nat
  locPick : Nat

/-- Raw draws for one generate_user_id call: the randint(20, 50) pool
size per department index, the per-user draws, and the final
random.choice index. -/
structure UserGenRand where
  countDraw : Nat → Nat
  userDraw : Nat → Nat → UserRand
  choicePick : Nat

/-- One iteration of the user-construction loop in generate_user_id. -/
def buildUser (cfg : Config) (dept : String) (r : UserRand) : User :=
  let roles := (alistFind cfg.USER_ROLES dept).getD ["Employee"]
  let username := (r.firstName.take 1).toLower ++ r.lastName.toLower
  { user_id := username,
    username := username,
    email := username ++ "@company.com",
    first_name := r.firstName,
    last_name := r.lastName,
    department := dept,
    title := pick roles r.titlePick,
    employee_type := pick ["full_time", "contractor", "temp"] r.empTypePick,
    security_clearance := pick cfg.SECURITY_CLEARANCES r.clearancePick,
    location := pick (cfg.OFFICE_LOCATIONS.map (fun p => p.1)) r.locPick }

/-- BaseSecurityGenerator.generate_user_id: cache hit returns a random
member of the cached pool; cache miss synthesizes 20 to 50 users per
department in scope, stores them under the key, and returns a random
member. -/
def generate_user_id (cfg : Config) (st : GenState) (department : Option String)
    (r : UserGenRand) : User × GenState :=
  let cache_key := department.getD "any"
  match alistFind st.user_cache cache_key with
  | some pool => (pick pool r.choicePick, st)
  | none =>
    let departments := match department with
      | some d => [d]
      | none => cfg.DEPARTMENTS
    let users := (departments.enum.map (fun p =>
      (List.range (randint 20 50 (r.countDraw p.1))).map
        (fun j => buildUser cfg p.2 (r.userDraw p.1 j)))).flatten
    (pick users r.choicePick,
     { st with user_cache := alistSet st.user_cache cache_key users })

/-! ## Internal IP accessor -/

/-- Dotted-quad to 32-bit value. -/
def ipToNat (s : String) : Nat :=
  ((s.splitOn ".").map (fun p => p.toNat?.getD 0)).foldl (fun a b => a * 256 + b) 0

/-- 32-bit value to dotted quad. -/
def natToIp (n : Nat) : String :=
  toString (n / 16777216 % 256) ++ "." ++ toString (n / 65536 % 256) ++ "." ++
  toString (n / 256 % 256) ++ "." ++ toString (n % 256)

/-- The first 1000 entries of ipaddress.IPv4Network(ip_range).hosts()
for the a.b.0.0/16 style ranges in the configuration: host addresses
start one past the network address. -/
def cidrHosts (ip_range : String) : List String :=
  match ip_range.splitOn "/" with
  | [base, _] => (List.range 1000).map (fun k => natToIp (ipToNat base + k + 1))
  | _ => []

structure IntIpRand where
  idx : Nat

/-- BaseSecurityGenerator.generate_internal_ip. -/
def generate_internal_ip (cfg : Config) (st : GenState) (location : String)
    (r : IntIpRand) : String × GenState :=
  match alistFind st.ip_cache location with
  | some ips => (pick ips r.idx, st)
  | none =>
    let office := alistFind cfg.OFFICE_LOCATIONS location
    let ip_range := (office.map (fun o => o.ip_range)).getD "10.1.0.0/16"
    let ips := cidrHosts ip_range
    (pick ips r.idx, { st with ip_cache := alistSet st.ip_cache location ips })

/-! ## Timestamp generation (BaseSecurityGenerator.generate_timestamp) -/

/-- Raw draws for one generate_timestamp call: the randint(0,
total_seconds) offset, the random.random() value compared against the
business-hours bias, and the hour/minute/second replacement draws. -/
structure TsRand where
  randSec : Nat
  u : ℚ
  h : Nat
  m : Nat
  s : Nat

/-- The weekend-avoidance loop: add one day while the date falls on a
Saturday or Sunday.  The loop runs at most two real iterations (the
weekday cycle has period 7); fuel 7 strictly dominates it. -/
def skipWeekendAux : Nat → Time → Time
  | 0, t => t
  | fuel + 1, t => if 5 ≤ weekday t then skipWeekendAux fuel (t + secsPerDay) else t

/-- BaseSecurityGenerator.generate_timestamp. -/
def generate_timestamp (start_date end_date : Time) (business_hours_bias : ℚ)
    (r : TsRand) : Time :=
  let total_seconds := end_date - start_date
  let timestamp := start_date + randint 0 total_seconds r.randSec
  if r.u < business_hours_bias then
    skipWeekendAux 7 (replaceHMS timestamp (randint 9 17 r.h) (randint 0 59 r.m) (randint 0 59 r.s))
  else
    timestamp

/-! ## Geolocation, user agents, application protocol, raw log -/

structure Geo where
  city : String
  country : String
  latitude : Int
  longitude : Int
  timezone : Option String
  threat_level : Option String
deriving Repr, DecidableEq, Inhabited

/-- Raw draws for generate_geolocation: the random.choice index over the
relevant static table and the fake.latitude()/fake.longitude()
(and, for the random kind, fake.city()/fake.country()) outputs. -/
structure GeoRand where
  idx : Nat
  lat : Int
  lon : Int
  fakeCity : String
  fakeCountry : String

/-- BaseSecurityGenerator.generate_geolocation. -/
def generate_geolocation (cfg : Config) (location_type : String) (r : GeoRand) : Geo :=
  if location_type == "office" then
    let loc := pick (cfg.OFFICE_LOCATIONS.map (fun p => p.2)) r.idx
    { city := loc.city, country := loc.country, latitude := r.lat, longitude := r.lon,
      timezone := some loc.timezone, threat_level := none }
  else if location_type == "threat" then
    let loc := pick cfg.THREAT_LOCATIONS r.idx
    { city := loc.city, country := loc.country, latitude := r.lat, longitude := r.lon,
      timezone := none, threat_level := some loc.threat_level }
  else
    { city := r.fakeCity, country := r.fakeCountry, latitude := r.lat, longitude := r.lon,
      timezone := none, threat_level := none }

def desktop_agents : List String :=
  ["Mozilla/5.0 (Windows NT 10.0; Win64; x64) AppleWebKit/537.36 Chrome/91.0.4472.124",
   "Mozilla/5.0 (Macintosh; Intel Mac OS X 10_15_7) AppleWebKit/537.36 Chrome/91.0.4472.124",
   "Mozilla/5.0 (Windows NT 10.0; Win64; x64; rv:89.0) Gecko/20100101 Firefox/89.0",
   "Mozilla/5.0 (Macintosh; Intel Mac OS X 10_15_7) AppleWebKit/605.1.15 Safari/14.1.1"]

def mobile_agents : List String :=
  ["Mozilla/5.0 (iPhone; CPU iPhone OS 14_6 like Mac OS X) AppleWebKit/605.1.15 Safari/604.1",
   "Mozilla/5.0 (Android 11; Mobile; rv:68.0) Gecko/68.0 Firefox/88.0",
   "Mozilla/5.0 (Linux; Android 11; SM-G991B) AppleWebKit/537.36 Chrome/91.0.4472.120"]

def suspicious_agents : List String :=
  ["curl/7.68.0", "python-requests/2.25.1", "Wget/1.20.3 (linux-gnu)", "sqlmap/1.5.7#stable"]

/-- BaseSecurityGenerator.generate_user_agent. -/
def generate_user_agent (device_type : String) (idx : Nat) : String :=
  if device_type == "desktop" then pick desktop_agents idx
  else if device_type == "mobile" then pick mobile_agents idx
  else pick suspicious_agents idx

def port_mapping : List (Nat × String) :=
  [(80, "HTTP"), (443, "HTTPS"), (22, "SSH"), (21, "FTP"), (25, "SMTP"), (53, "DNS"),
   (110, "POP3"), (143, "IMAP"), (993, "IMAPS"), (995, "POP3S"), (3389, "RDP"),
   (5432, "PostgreSQL"), (3306, "MySQL"), (1433, "SQL Server"), (139, "NetBIOS"),
   (445, "SMB"), (389, "LDAP"), (636, "LDAPS"), (161, "SNMP"), (162, "SNMP-TRAP")]

/-- NetworkLogGenerator._determine_app_protocol; dict.get(port, 'Unknown')
applied to a possibly absent port (the ICMP case passes None). -/
def determine_app_protocol (port : Option Nat) : String :=
  match port with
  | some p => (((port_mapping.find? (fun q => q.1 == p)).map (fun q => q.2)).getD "Unknown")
  | none => "Unknown"

/-- The two raw-log shapes NetworkLogGenerator._generate_raw_log emits. -/
inductive RawLog where
  | http (timestamp : Time) (method : String) (path : String) (status : Nat)
      (user_agent : String) (size : Nat)
  | generic (timestamp : Time) (src : String) (dst : String) (proto : String)
      (dport : Option Nat) (flags : String) (len : Nat)
deriving Repr, DecidableEq, Inhabited

/-- Raw draws for _generate_raw_log, plus the datetime.now() wall-clock
reading it embeds. -/
structure RawRand where
  now : Time
  methodPick : Nat
  pathPick : Nat
  statusPick : Nat
  uaPick : Nat
  size : Nat
  flagsPick : Nat
  len : Nat

/-- NetworkLogGenerator._generate_raw_log. -/
def generate_raw_log (protocol : String) (source_ip dest_ip : String)
    (dest_port : Option Nat) (r : RawRand) : RawLog :=
  if protocol == "TCP" && (dest_port == some 80 || dest_port == some 443) then
    RawLog.http r.now
      (pick ["GET", "POST", "PUT", "DELETE", "HEAD", "OPTIONS"] r.methodPick)
      (pick ["/api/users", "/login", "/dashboard", "/admin", "/config", "/data"] r.pathPick)
      (pick [200, 404, 403, 500] r.statusPick)
      (generate_user_agent "desktop" r.uaPick)
      (randint 500 50000 r.size)
  else
    RawLog.generic r.now source_ip dest_ip protocol dest_port
      (pick ["SYN", "ACK", "FIN", "RST", "PSH"] r.flagsPick)
      (randint 64 1500 r.len)

/-! ## Event record -/

/-- One network log event.  bytes_transferred and file_path model dict
keys that inject_threat_scenario probes with the in operator but that
network events never carry: generate_event always sets them to none. -/
structure Event where
  log_id : String
  event_time : Time
  source_ip : String
  destination_ip : String
  source_port : Option Nat
  destination_port : Option Nat
  protocol : String
  bytes_sent : Nat
  bytes_received : Nat
  duration_ms : Nat
  connection_state : String
  user_id : String
  session_id : String
  source_hostname : String
  destination_hostname : String
  destination_domain : String
  application_protocol : String
  user_agent : Option String
  response_code : Option Nat
  threat_score : ℚ
  geolocation : Geo
  raw_log : RawLog
  bytes_transferred : Option Nat
  file_path : Option String
deriving Repr, DecidableEq, Inhabited

/-! ## Scenario engine (BaseSecurityGenerator.inject_threat_scenario) -/

/-- Raw draws for inject_threat_scenario: the randint(50_000_000,
500_000_000) bytes draw, the generate_external_ip(malicious=True)
draws, the random.uniform(0.7, 0.9) threat score, the randint(20, 23)
hour and randint(0, 59) minute draws, and the sensitive-file choice. -/
structure InjectRand where
  bytesTransferred : Nat
  extIp : ExtIpRand
  score : ℚ
  hourDraw : Nat
  minuteDraw : Nat
  filePick : Nat

/-- scenario_start = current_time - timedelta(days=duration_days);
days_elapsed = (current_time - scenario_start).days.  The subtraction is
exact datetime arithmetic, so it is carried out in ℤ and .days is floor
division by the seconds in a day. -/
def scenario_days_elapsed (current_time : Time) (duration_days : Int) : Int :=
  let scenario_start : Int := (current_time : Int) - duration_days * (secsPerDay : Int)
  ((current_time : Int) - scenario_start).fdiv (secsPerDay : Int)

/-- The timeline scan: iterate in order, remembering the latest entry
whose day bound has been reached. -/
def select_phase (timeline : List TimelineEntry) (days_elapsed : Int) : Option TimelineEntry :=
  timeline.foldl
    (fun acc phase_info => if phase_info.day ≤ days_elapsed then some phase_info else acc)
    none

def sensitive_files : List String :=
  ["/home/shared/financial_data.xlsx",
   "/home/shared/customer_database.sql",
   "/home/shared/employee_records.csv"]

/-- BaseSecurityGenerator.inject_threat_scenario.  The event_time
replacement in the insider_threat branch is guarded in the source by
event.get('event_time'); network events always carry a truthy
event_time, so the guard is always taken here. -/
def inject_threat_scenario (g : Gen) (event : Event) (scenario : String)
    (current_time : Time) (r : InjectRand) : Event :=
  match alistFind g.config.THREAT_SCENARIOS scenario with
  | none => event
  | some scenario_config =>
    let days_elapsed := scenario_days_elapsed current_time scenario_config.duration_days
    match select_phase scenario_config.timeline days_elapsed with
    | none => event
    | some current_phase =>
      if scenario == "phantom_exfiltrator" then
        if current_phase.phase == "exfiltration" then
          let event :=
            if event.bytes_transferred.isSome then
              { event with bytes_transferred := some (randint 50000000 500000000 r.bytesTransferred) }
            else event
          { event with destination_ip := generate_external_ip g true r.extIp,
                       threat_score := r.score }
        else event
      else if scenario == "insider_threat" then
        let event :=
          { event with event_time := replaceHM event.event_time (randint 20 23 r.hourDraw)
                                       (randint 0 59 r.minuteDraw) }
        if event.file_path.isSome then
          { event with file_path := some (pick sensitive_files r.filePick) }
        else event
      else event

/-! ## Event synthesizer (NetworkLogGenerator.generate_event) -/

/-- NetworkLogGenerator.common_ports, tcp entry. -/
def common_ports_tcp : List Nat :=
  [80, 443, 22, 23, 21, 25, 53, 110, 143, 993, 995, 465, 587, 3389, 5432, 3306]

/-- NetworkLogGenerator.common_ports, udp entry. -/
def common_ports_udp : List Nat :=
  [53, 67, 68, 69, 123, 161, 162, 514, 1812, 1813]

/-- Pad randint(1, 10) as the 02d format specifier does. -/
def twoDigits (n : Nat) : String := if n < 10 then "0" ++ toString n else toString n

/-- Raw draws for one generate_event call, one field per draw site in
source order.  threatScoreThreat is the random.uniform(0.6, 0.9) value
of the threat branch and threatScoreBenign the random.uniform(0.0, 0.3)
value of the benign branch; logId and sessionUuid are the two uuid4
outputs. -/
structure EvRand where
  threatU : ℚ
  userR : UserGenRand
  protoPick : Nat
  srcPort : Nat
  tcpPortPick : Nat
  udpPortPick : Nat
  srcIp : IntIpRand
  extThreat : ExtIpRand
  intExtU : ℚ
  dstIntIp : IntIpRand
  extBenign : ExtIpRand
  threatScoreThreat : ℚ
  threatScoreBenign : ℚ
  bytesSentBig : Nat
  bytesRecvSmall : Nat
  bytesSentNorm : Nat
  bytesRecvNorm : Nat
  duration : Nat
  statePick : Nat
  logId : String
  sessionUuid : String
  hostSuffixPick : Nat
  destServicePick : Nat
  destNum : Nat
  threatDomPick : Nat
  legitDomPick : Nat
  uaPick : Nat
  respThreatPick : Nat
  respBenignPick : Nat
  geo : GeoRand
  raw : RawRand
  inj : InjectRand

/-- The event-assembly part of NetworkLogGenerator.generate_event:
everything up to (and excluding) the final scenario application. -/
def generate_event_base (g : Gen) (st : GenState) (timestamp : Time)
    (scenario : Option String) (threat_probability : ℚ) (r : EvRand) : Event × GenState :=
  let is_threat := r.threatU < threat_probability
  let userPair := generate_user_id g.config st none r.userR
  let user := userPair.1
  let st1 := userPair.2
  let location := user.location
  let protocol := pick ["TCP", "UDP", "ICMP"] r.protoPick
  let source_port : Option Nat :=
    if protocol == "TCP" || protocol == "UDP" then some (randint 1024 65535 r.srcPort) else none
  let dest_port : Option Nat :=
    if protocol == "TCP" || protocol == "UDP" then
      if protocol == "TCP" then some (pick common_ports_tcp r.tcpPortPick)
      else some (pick common_ports_udp r.udpPortPick)
    else none
  let srcPair := generate_internal_ip g.config st1 location r.srcIp
  let source_ip := srcPair.1
  let st2 := srcPair.2
  let dstTriple : String × ℚ × GenState :=
    if is_threat then
      (generate_external_ip g true r.extThreat, r.threatScoreThreat, st2)
    else if r.intExtU < mkRat 3 10 then
      let q := generate_internal_ip g.config st2 location r.dstIntIp
      (q.1, r.threatScoreBenign, q.2)
    else
      (generate_external_ip g false r.extBenign, r.threatScoreBenign, st2)
  let destination_ip := dstTriple.1
  let threat_score := dstTriple.2.1
  let st3 := dstTriple.2.2
  let bytesPair : Nat × Nat :=
    if is_threat && scenario == some "phantom_exfiltrator" then
      (randint 10000000 100000000 r.bytesSentBig, randint 1000 10000 r.bytesRecvSmall)
    else
      (randint 100 50000 r.bytesSentNorm, randint 100 500000 r.bytesRecvNorm)
  let bytes_sent := bytesPair.1
  let bytes_received := bytesPair.2
  let duration_ms := randint 100 30000 r.duration
  let connection_state :=
    pick ["ESTABLISHED", "SYN_SENT", "SYN_RECV", "FIN_WAIT1", "FIN_WAIT2",
          "TIME_WAIT", "CLOSE", "CLOSE_WAIT", "LAST_ACK", "LISTEN"] r.statePick
  let app_protocol := determine_app_protocol dest_port
  let source_hostname := user.user_id ++ "-" ++ pick ["laptop", "desktop", "mobile"] r.hostSuffixPick
  let internalDest := destination_ip.startsWith "10."
  let destPair : String × String :=
    if internalDest then
      (pick ["file-server", "db-server", "web-server", "mail-server", "dns-server"] r.destServicePick
         ++ "-" ++ twoDigits (randint 1 10 r.destNum), "company.local")
    else
      let destination_domain :=
        if is_threat then pick ["evil-cdn.net", "malware-host.com", "c2-server.info"] r.threatDomPick
        else pick ["github.com", "stackoverflow.com", "aws.amazon.com",
                   "google.com", "microsoft.com", "slack.com"] r.legitDomPick
      (destination_domain, destination_domain)
  let destination_hostname := destPair.1
  let destination_domain := destPair.2
  let user_agent : Option String :=
    if dest_port == some 80 || dest_port == some 443 then
      some (generate_user_agent (if is_threat then "suspicious" else "desktop") r.uaPick)
    else none
  let response_code : Option Nat :=
    if dest_port == some 80 || dest_port == some 443 then
      some (if is_threat then pick [200, 404, 403] r.respThreatPick
            else pick [200, 301, 302, 404, 403, 500] r.respBenignPick)
    else none
  let geolocation :=
    if internalDest then generate_geolocation g.config "office" r.geo
    else if is_threat then generate_geolocation g.config "threat" r.geo
    else generate_geolocation g.config "random" r.geo
  let event : Event :=
    { log_id := r.logId,
      event_time := timestamp,
      source_ip := source_ip,
      destination_ip := destination_ip,
      source_port := source_port,
      destination_port := dest_port,
      protocol := protocol,
      bytes_sent := bytes_sent,
      bytes_received := bytes_received,
      duration_ms := duration_ms,
      connection_state := connection_state,
      user_id := user.user_id,
      session_id := r.sessionUuid.take 8,
      source_hostname := source_hostname,
      destination_hostname := destination_hostname,
      destination_domain := destination_domain,
      application_protocol := app_protocol,
      user_agent := user_agent,
      response_code := response_code,
      threat_score := threat_score,
      geolocation := geolocation,
      raw_log := generate_raw_log protocol source_ip destination_ip dest_port r.raw,
      bytes_transferred := none,
      file_path := none }
  (event, st3)

/-- NetworkLogGenerator.generate_event: assemble the event, then, when a
scenario name was supplied, pass it through the scenario engine. -/
def generate_event (g : Gen) (st : GenState) (timestamp : Time)
    (scenario : Option String) (threat_probability : ℚ) (r : EvRand) : Event × GenState :=
  let pair := generate_event_base g st timestamp scenario threat_probability r
  match scenario with
  | some s => (inject_threat_scenario g pair.1 s timestamp r.inj, pair.2)
  | none => pair

/-! ## Scenario event generation (NetworkLogGenerator.generate_scenario_events) -/

/-- Raw draws for one iteration of the scenario-event loop. -/
structure ScenRand where
  ts : TsRand
  branchU : ℚ
  targetPick : Nat
  ev : EvRand

/-- The two-key dict the source stores under the reserved scenario cache
key: a user_id and the assumed primary location; the remaining user
fields are absent (modelled as empty strings, which nothing reads). -/
def scenarioUserStub (uid : String) : User :=
  { user_id := uid, username := "", email := "", first_name := "", last_name := "",
    department := "", title := "", employee_type := "", security_clearance := "",
    location := "headquarters" }

/-- NetworkLogGenerator.generate_scenario_events. -/
def generate_scenario_events (g : Gen) (st : GenState) (scenario : String)
    (start_time end_time : Time) (event_count : Nat) (r : Nat → ScenRand) :
    List Event × GenState :=
  match alistFind g.config.THREAT_SCENARIOS scenario with
  | none => ([], st)
  | some scenario_config =>
    let target_users := scenario_config.target_users
    (List.range event_count).foldl
      (fun (acc : List Event × GenState) i =>
        let events := acc.1
        let st := acc.2
        let timestamp := generate_timestamp start_time end_time (mkRat 3 10) (r i).ts
        if !target_users.isEmpty && (r i).branchU < mkRat 8 10 then
          let user := scenarioUserStub (pick target_users (r i).targetPick)
          let st := { st with user_cache := alistSet st.user_cache "scenario" [user] }
          let p := generate_event g st timestamp (some scenario) (mkRat 8 10) (r i).ev
          (events ++ [p.1], p.2)
        else
          let p := generate_event g st timestamp (some scenario) (mkRat 1 10) (r i).ev
          (events ++ [p.1], p.2))
      ([], st)

/-! ## Bulk generation (NetworkLogGenerator.generate_bulk_events) -/

/-- Raw draws for one baseline-event iteration. -/
structure NormRand where
  ts : TsRand
  ev : EvRand

/-- Raw draws for a bulk run: per requested-scenario index a stream of
scenario-event draws, and a stream of baseline-event draws. -/
structure BulkRand where
  scen : Nat → Nat → ScenRand
  norm : Nat → NormRand

/-- The scenario loop of generate_bulk_events: for each requested
scenario, generate its share (events_for_scenario is recomputed each
iteration in the source; it does not depend on the iteration). -/
def bulk_scenario_pass (g : Gen) (st : GenState) (start_time end_time : Time)
    (scenario_event_count : Nat) (scenarios : List String) (r : BulkRand) :
    List Event × GenState :=
  scenarios.enum.foldl
    (fun (acc : List Event × GenState) p =>
      let events_for_scenario := scenario_event_count / scenarios.length
      let q := generate_scenario_events g acc.2 p.2 start_time end_time
        events_for_scenario (r.scen p.1)
      (acc.1 ++ q.1, q.2))
    ([], st)

/-- The baseline loop of generate_bulk_events: normal_event_count events
with the default business-hours bias and a 2 percent threat rate. -/
def bulk_normal_pass (g : Gen) (st : GenState) (start_time end_time : Time)
    (normal_event_count : Nat) (r : BulkRand) : List Event × GenState :=
  (List.range normal_event_count).foldl
    (fun (acc : List Event × GenState) i =>
      let timestamp := generate_timestamp start_time end_time (mkRat 7 10) (r.norm i).ts
      let p := generate_event g acc.2 timestamp none (mkRat 2 100) (r.norm i).ev
      (acc.1 ++ [p.1], p.2))
    ([], st)

/-- NetworkLogGenerator.generate_bulk_events.  int(total_events * 0.1)
is modelled as floor division by ten.  An empty scenario list covers
both the None default and an empty list argument (both falsy). -/
def generate_bulk_events (g : Gen) (st : GenState) (start_time end_time : Time)
    (events_per_day : Nat) (scenarios : List String) (r : BulkRand) :
    List Event × GenState :=
  let total_days := (end_time - start_time) / secsPerDay
  let total_events := events_per_day * total_days
  let scenePair :=
    if !scenarios.isEmpty then
      bulk_scenario_pass g st start_time end_time (total_events / 10) scenarios r
    else ([], st)
  let scenario_events := scenePair.1
  let normal_event_count := total_events - scenario_events.length
  let normPair := bulk_normal_pass g scenePair.2 start_time end_time normal_event_count r
  let all_events := normPair.1 ++ scenario_events
  (all_events.mergeSort (fun a b => decide (a.event_time ≤ b.event_time)), normPair.2)

/-! ## Helper lemmas -/

theorem keyBeqFalse {s t : String} (h : ¬ s = t) : (t == s) = false := by
  simp only [beq_eq_false_iff_ne, ne_eq]
  exact fun hh => h hh.symm

theorem pick_mem [Inhabited α] {l : List α} (h : l ≠ []) (v : Nat) : pick l v ∈ l := by
  have hpos : 0 < l.length := List.length_pos.2 h
  have hlt : v % l.length < l.length := Nat.mod_lt _ hpos
  unfold pick
  rw [List.getD_eq_getElem?_getD, List.getElem?_eq_getElem hlt]
  exact List.getElem_mem hlt

theorem randint_lower (a b v : Nat) : a ≤ randint a b v := Nat.le_add_right a _

theorem randint_upper {a b : Nat} (h : a ≤ b) (v : Nat) : randint a b v ≤ b := by
  unfold randint
  have h2 : v % (b - a + 1) < b - a + 1 := Nat.mod_lt _ (Nat.succ_pos _)
  omega

theorem getLast?_cons_or (a : α) (l : List α) : (a :: l).getLast? = l.getLast?.or (some a) := by
  induction l generalizing a with
  | nil => rfl
  | cons b l ih =>
    rw [List.getLast?_cons_cons, ih b]
    cases h : l.getLast? <;> simp [Option.or]

theorem scenario_days_elapsed_eq (t : Time) (d : Int) : scenario_days_elapsed t d = d := by
  show ((t : Int) - ((t : Int) - d * (secsPerDay : Int))).fdiv (secsPerDay : Int) = d
  rw [show ((t : Int) - ((t : Int) - d * (secsPerDay : Int))) = d * (secsPerDay : Int) by ring]
  exact Int.mul_fdiv_cancel d (by norm_num [secsPerDay])

theorem select_phase_foldl (d : Int) (tl : List TimelineEntry) (acc : Option TimelineEntry) :
    tl.foldl (fun acc ph => if ph.day ≤ d then some ph else acc) acc =
      ((tl.filter (fun ph => decide (ph.day ≤ d))).getLast?).or acc := by
  induction tl generalizing acc with
  | nil => rfl
  | cons ph tl ih =>
    by_cases h : ph.day ≤ d
    · rw [List.foldl_cons, if_pos h, ih, List.filter_cons, if_pos (by simpa using h)]
      rw [getLast?_cons_or]
      cases hg : (tl.filter (fun ph => decide (ph.day ≤ d))).getLast? <;> simp [Option.or]
    · rw [List.foldl_cons, if_neg h, ih, List.filter_cons, if_neg (by simpa using h)]

theorem select_phase_eq (tl : List TimelineEntry) (d : Int) :
    select_phase tl d = (tl.filter (fun ph => decide (ph.day ≤ d))).getLast? := by
  rw [select_phase, select_phase_foldl]
  cases h : (tl.filter (fun ph => decide (ph.day ≤ d))).getLast? <;> simp [Option.or]

theorem find_THREAT_SCENARIOS (s : String) :
    alistFind THREAT_SCENARIOS s =
      if s = "phantom_exfiltrator" then some phantom_exfiltrator_config
      else if s = "insider_threat" then some insider_threat_config
      else if s = "supply_chain_attack" then some supply_chain_attack_config
      else none := by
  unfold alistFind THREAT_SCENARIOS
  by_cases h1 : s = "phantom_exfiltrator"
  · subst h1; rfl
  · by_cases h2 : s = "insider_threat"
    · subst h2; rfl
    · by_cases h3 : s = "supply_chain_attack"
      · subst h3; rfl
      · rw [List.find?_cons_of_neg _ (by simp [keyBeqFalse h1]),
            List.find?_cons_of_neg _ (by simp [keyBeqFalse h2]),
            List.find?_cons_of_neg _ (by simp [keyBeqFalse h3])]
        simp [h1, h2, h3]
theorem inject_phantom_eq (g : Gen) (hg : g.config = shippedConfig) (ev : Event)
    (hbt : ev.bytes_transferred = none) (t : Time) (r : InjectRand) :
    inject_threat_scenario g ev "phantom_exfiltrator" t r =
      { ev with destination_ip := generate_external_ip g true r.extIp,
                threat_score := r.score } := by
  have hsel : select_phase phantom_exfiltrator_config.timeline
      (scenario_days_elapsed t phantom_exfiltrator_config.duration_days) =
      some { day := 42, phase := "exfiltration",
             activities := ["data_compression", "encrypted_transfer"] } := by
    rw [show phantom_exfiltrator_config.duration_days = (45 : Int) from rfl,
       scenario_days_elapsed_eq]
    rfl
  unfold inject_threat_scenario
  rw [hg, show shippedConfig.THREAT_SCENARIOS = THREAT_SCENARIOS from rfl,
     find_THREAT_SCENARIOS, if_pos rfl]
  simp [hsel, hbt]

theorem inject_insider_eq (g : Gen) (hg : g.config = shippedConfig) (ev : Event)
    (t : Time) (r : InjectRand) :
    inject_threat_scenario g ev "insider_threat" t r = ev := by
  have hsel : select_phase insider_threat_config.timeline
      (scenario_days_elapsed t insider_threat_config.duration_days) = none := rfl
  unfold inject_threat_scenario
  rw [hg, show shippedConfig.THREAT_SCENARIOS = THREAT_SCENARIOS from rfl,
     find_THREAT_SCENARIOS]
  rw [if_neg (by decide), if_pos rfl]
  simp [hsel]

theorem inject_supply_eq (g : Gen) (hg : g.config = shippedConfig) (ev : Event)
    (t : Time) (r : InjectRand) :
    inject_threat_scenario g ev "supply_chain_attack" t r = ev := by
  have hsel : select_phase supply_chain_attack_config.timeline
      (scenario_days_elapsed t supply_chain_attack_config.duration_days) = none := rfl
  unfold inject_threat_scenario
  rw [hg, show shippedConfig.THREAT_SCENARIOS = THREAT_SCENARIOS from rfl,
     find_THREAT_SCENARIOS]
  rw [if_neg (by decide), if_neg (by decide), if_pos rfl]
  simp [hsel]

theorem inject_none_eq (g : Gen) (ev : Event) {s : String} (t : Time) (r : InjectRand)
    (hs : alistFind g.config.THREAT_SCENARIOS s = none) :
    inject_threat_scenario g ev s t r = ev := by
  unfold inject_threat_scenario
  rw [hs]
theorem inject_preserves (g : Gen) (hg : g.config = shippedConfig) (ev : Event)
    (hbt : ev.bytes_transferred = none) (s : String) (t : Time) (r : InjectRand) :
    (inject_threat_scenario g ev s t r).event_time = ev.event_time ∧
    (inject_threat_scenario g ev s t r).destination_port = ev.destination_port ∧
    (inject_threat_scenario g ev s t r).user_agent = ev.user_agent ∧
    (inject_threat_scenario g ev s t r).response_code = ev.response_code ∧
    (inject_threat_scenario g ev s t r).bytes_sent = ev.bytes_sent ∧
    (inject_threat_scenario g ev s t r).user_id = ev.user_id := by
  by_cases h1 : s = "phantom_exfiltrator"
  · subst h1; rw [inject_phantom_eq g hg ev hbt t r]; exact ⟨rfl, rfl, rfl, rfl, rfl, rfl⟩
  · by_cases h2 : s = "insider_threat"
    · subst h2; rw [inject_insider_eq g hg ev t r]; exact ⟨rfl, rfl, rfl, rfl, rfl, rfl⟩
    · by_cases h3 : s = "supply_chain_attack"
      · subst h3; rw [inject_supply_eq g hg ev t r]; exact ⟨rfl, rfl, rfl, rfl, rfl, rfl⟩
      · rw [inject_none_eq g ev t r
          (by rw [hg, show shippedConfig.THREAT_SCENARIOS = THREAT_SCENARIOS from rfl,
                 find_THREAT_SCENARIOS]; simp [h1, h2, h3])]
        exact ⟨rfl, rfl, rfl, rfl, rfl, rfl⟩

theorem generate_event_time (g : Gen) (hg : g.config = shippedConfig) (st : GenState)
    (t : Time) (sc : Option String) (p : ℚ) (r : EvRand) :
    (generate_event g st t sc p r).1.event_time = t := by
  cases sc with
  | none => rfl
  | some s =>
    exact (inject_preserves g hg (generate_event_base g st t (some s) p r).1
      rfl s t r.inj).1.trans rfl

theorem threat_ip_list_mkGen (lr : LoadRand) : threat_ip_list (mkGen lr) = malicious_ips := by
  have h50 : ((List.range 50).map (fun i =>
      ({ indicator := lr.hashVal i, type := "hash",
         threat_type := pick ["malware", "ransomware", "trojan"] (lr.hashR i).ttPick,
         confidence := (lr.hashR i).conf,
         source := pick shippedConfig.THREAT_INTEL_SOURCES (lr.hashR i).srcPick } : Indicator))).filter
      (fun i => i.type == "ip") = [] := by
    rw [List.filter_eq_nil_iff]
    intro a ha
    simp only [List.mem_map] at ha
    obtain ⟨i, _, rfl⟩ := ha
    simp
  unfold threat_ip_list mkGen load_threat_indicators
  rw [List.filter_append, List.filter_append, h50]
  simp [malicious_ips, malicious_domains, List.enum, List.enumFrom]
theorem generate_event_shape (g : Gen) (hg : g.config = shippedConfig) (st : GenState)
    (t : Time) (sc : Option String) (p : ℚ) (r : EvRand) :
    ∃ (D : Option Nat) (ua : String) (rc : Nat),
      (generate_event g st t sc p r).1.destination_port = D ∧
      (generate_event g st t sc p r).1.user_agent =
        (if D == some 80 || D == some 443 then some ua else none) ∧
      (generate_event g st t sc p r).1.response_code =
        (if D == some 80 || D == some 443 then some rc else none) := by
  cases sc with
  | none => exact ⟨_, _, _, rfl, rfl, rfl⟩
  | some s =>
    obtain ⟨h1, h2, h3, h4, h5, h6⟩ :=
      inject_preserves g hg (generate_event_base g st t (some s) p r).1 rfl s t r.inj
    exact ⟨_, _, _, h2, h3.trans rfl, h4.trans rfl⟩

theorem ite_web_ne_none {α : Type} (D : Option Nat) (x : α) :
    ((if D == some 80 || D == some 443 then some x else none) ≠ none ↔
      (D = some 80 ∨ D = some 443)) := by
  by_cases h : (D == some 80 || D == some 443) = true
  · rw [if_pos h]
    simp only [Bool.or_eq_true, beq_iff_eq] at h
    simp [h]
  · rw [if_neg h]
    simp only [Bool.or_eq_true, beq_iff_eq] at h
    push_neg at h
    simp [h.1, h.2]

theorem generate_event_phantom_bytes (g : Gen) (hg : g.config = shippedConfig)
    (st : GenState) (t : Time) (p : ℚ) (r : EvRand) (hth : r.threatU < p) :
    (generate_event g st t (some "phantom_exfiltrator") p r).1.bytes_sent =
      randint 10000000 100000000 r.bytesSentBig := by
  have h5 := (inject_preserves g hg
    (generate_event_base g st t (some "phantom_exfiltrator") p r).1 rfl
    "phantom_exfiltrator" t r.inj).2.2.2.2.1
  refine h5.trans ?_
  show (if (decide (r.threatU < p) &&
        ((some "phantom_exfiltrator" : Option String) == some "phantom_exfiltrator")) = true then
      (randint 10000000 100000000 r.bytesSentBig, randint 1000 10000 r.bytesRecvSmall)
    else
      (randint 100 50000 r.bytesSentNorm, randint 100 500000 r.bytesRecvNorm)).1 =
    randint 10000000 100000000 r.bytesSentBig
  rw [if_pos (by simp [hth])]

theorem generate_event_phantom_dest (g : Gen) (hg : g.config = shippedConfig)
    (st : GenState) (t : Time) (p : ℚ) (r : EvRand) :
    (generate_event g st t (some "phantom_exfiltrator") p r).1.destination_ip =
      generate_external_ip g true r.inj.extIp := by
  show (inject_threat_scenario g (generate_event_base g st t (some "phantom_exfiltrator") p r).1
    "phantom_exfiltrator" t r.inj).destination_ip = _
  rw [inject_phantom_eq g hg _ rfl t r.inj]
theorem generate_user_id_hit (cfg : Config) (st : GenState) (department : Option String)
    (r : UserGenRand) {pool : List User}
    (h : alistFind st.user_cache (department.getD "any") = some pool) :
    generate_user_id cfg st department r = (pick pool r.choicePick, st) := by
  simp only [generate_user_id, h]

theorem generate_event_user_id (g : Gen) (hg : g.config = shippedConfig) (st : GenState)
    (t : Time) (sc : Option String) (p : ℚ) (r : EvRand) :
    (generate_event g st t sc p r).1.user_id =
      (generate_user_id g.config st none r.userR).1.user_id := by
  cases sc with
  | none => rfl
  | some s =>
    exact (inject_preserves g hg (generate_event_base g st t (some s) p r).1
      rfl s t r.inj).2.2.2.2.2.trans rfl

theorem generate_external_ip_malicious_mem (g : Gen) (hne : threat_ip_list g ≠ [])
    (r : ExtIpRand) : generate_external_ip g true r ∈ threat_ip_list g := by
  unfold generate_external_ip
  rw [if_pos (by simp [List.isEmpty_iff, hne])]
  exact pick_mem hne r.idx

theorem foldl_events_forall {σ α : Type _} (P : Event → Prop)
    (f : (List Event × σ) → α → (List Event × σ))
    (hf : ∀ acc x, (∀ e ∈ acc.1, P e) → ∀ e ∈ (f acc x).1, P e) :
    ∀ (l : List α) (acc : List Event × σ),
      (∀ e ∈ acc.1, P e) → ∀ e ∈ (l.foldl f acc).1, P e := by
  intro l
  induction l with
  | nil => intro acc h; simpa using h
  | cons x l ih => intro acc h; exact ih (f acc x) (hf acc x h)

theorem foldl_events_length {σ α : Type _}
    (f : (List Event × σ) → α → (List Event × σ)) (k : α → Nat)
    (hf : ∀ acc x, (f acc x).1.length = acc.1.length + k x) :
    ∀ (l : List α) (acc : List Event × σ),
      (l.foldl f acc).1.length = acc.1.length + (l.map k).sum := by
  intro l
  induction l with
  | nil => intro acc; simp
  | cons x l ih =>
    intro acc
    rw [List.foldl_cons, ih (f acc x), hf acc x]
    simp [Nat.add_assoc]

theorem generate_timestamp_no_bias_bounds (t0 t1 : Time) (bias : ℚ) (r : TsRand)
    (hse : t0 ≤ t1) (hu : ¬ (r.u < bias)) :
    t0 ≤ generate_timestamp t0 t1 bias r ∧ generate_timestamp t0 t1 bias r ≤ t1 := by
  simp only [generate_timestamp, if_neg hu]
  constructor
  · exact Nat.le_add_right _ _
  · have h := randint_upper (a := 0) (b := t1 - t0) (Nat.zero_le _) r.randSec
    have h2 : t0 + randint 0 (t1 - t0) r.randSec ≤ t0 + (t1 - t0) :=
      Nat.add_le_add_left h _
    rw [Nat.add_sub_cancel' hse] at h2
    exact h2

theorem eventLe_trans : ∀ a b c : Event,
    (decide (a.event_time ≤ b.event_time)) = true →
    (decide (b.event_time ≤ c.event_time)) = true →
    (decide (a.event_time ≤ c.event_time)) = true := by
  intro a b c hab hbc
  exact decide_eq_true (Nat.le_trans (of_decide_eq_true hab) (of_decide_eq_true hbc))

theorem eventLe_total : ∀ a b : Event,
    ((decide (a.event_time ≤ b.event_time)) || (decide (b.event_time ≤ a.event_time))) = true := by
  intro a b
  rcases Nat.le_total a.event_time b.event_time with h | h <;> simp [h]

theorem bulk_sorted (g : Gen) (st : GenState) (t0 t1 : Time) (epd : Nat)
    (scens : List String) (r : BulkRand) :
    List.Chain' (fun a b : Event => a.event_time ≤ b.event_time)
      (generate_bulk_events g st t0 t1 epd scens r).1 := by
  obtain ⟨l, hl⟩ : ∃ l, (generate_bulk_events g st t0 t1 epd scens r).1 =
      List.mergeSort l (fun a b => decide (a.event_time ≤ b.event_time)) := ⟨_, rfl⟩
  rw [hl]
  exact ((List.sorted_mergeSort eventLe_trans eventLe_total l).imp
    (fun h => of_decide_eq_true h)).chain'
theorem foldl_events_length_one {σ α : Type _}
    (f : (List Event × σ) → α → (List Event × σ))
    (hf : ∀ acc x, (f acc x).1.length = acc.1.length + 1) :
    ∀ (l : List α) (acc : List Event × σ),
      (l.foldl f acc).1.length = acc.1.length + l.length := by
  intro l
  induction l with
  | nil => intro acc; simp
  | cons x l ih =>
    intro acc
    rw [List.foldl_cons, ih (f acc x), hf acc x, List.length_cons]
    omega

theorem foldl_events_length_le {σ α : Type _}
    (f : (List Event × σ) → α → (List Event × σ)) (k : Nat)
    (hf : ∀ acc x, (f acc x).1.length ≤ acc.1.length + k) :
    ∀ (l : List α) (acc : List Event × σ),
      (l.foldl f acc).1.length ≤ acc.1.length + l.length * k := by
  intro l
  induction l with
  | nil => intro acc; simp
  | cons x l ih =>
    intro acc
    calc (List.foldl f (f acc x) l).1.length
        ≤ (f acc x).1.length + l.length * k := ih (f acc x)
      _ ≤ acc.1.length + k + l.length * k := Nat.add_le_add_right (hf acc x) _
      _ = acc.1.length + (x :: l).length * k := by
          rw [List.length_cons, Nat.succ_mul]; omega

theorem generate_scenario_events_length (g : Gen) (st : GenState) (s : String)
    (t0 t1 : Time) (n : Nat) (r : Nat → ScenRand) :
    (generate_scenario_events g st s t0 t1 n r).1.length =
      if (alistFind g.config.THREAT_SCENARIOS s).isSome then n else 0 := by
  unfold generate_scenario_events
  cases h : alistFind g.config.THREAT_SCENARIOS s with
  | none => simp
  | some sc =>
    simp only [Option.isSome_some, if_true]
    refine Eq.trans (foldl_events_length_one _ ?hf (List.range n) ([], st)) (by simp)
    intro acc i
    dsimp only
    split <;> simp

theorem bulk_normal_pass_length (g : Gen) (st : GenState) (t0 t1 : Time) (n : Nat)
    (r : BulkRand) : (bulk_normal_pass g st t0 t1 n r).1.length = n := by
  unfold bulk_normal_pass
  refine Eq.trans (foldl_events_length_one _ ?hf (List.range n) ([], st)) (by simp)
  intro acc i
  simp

theorem bulk_scenario_pass_length_le (g : Gen) (st : GenState) (t0 t1 : Time)
    (c : Nat) (scens : List String) (r : BulkRand) :
    (bulk_scenario_pass g st t0 t1 c scens r).1.length ≤ c := by
  unfold bulk_scenario_pass
  refine le_trans (foldl_events_length_le _ (c / scens.length) ?hf scens.enum ([], st)) ?_
  case hf =>
    intro acc p
    dsimp only
    rw [List.length_append, generate_scenario_events_length]
    split
    · exact Nat.le_refl _
    · exact Nat.add_le_add_left (Nat.zero_le _) _
  simp only [List.enum_length, List.length_nil, Nat.zero_add]
  exact Nat.mul_div_le c scens.length

theorem generate_bulk_events_length (g : Gen) (st : GenState) (t0 t1 : Time)
    (epd : Nat) (scens : List String) (r : BulkRand) :
    (generate_bulk_events g st t0 t1 epd scens r).1.length =
      epd * ((t1 - t0) / secsPerDay) := by
  simp only [generate_bulk_events]
  rw [List.length_mergeSort, List.length_append, bulk_normal_pass_length]
  by_cases hs : scens.isEmpty
  · rw [if_neg (by simp [hs])]
    simp
  · rw [if_pos (by simp [hs])]
    have hle : (bulk_scenario_pass g st t0 t1
        (epd * ((t1 - t0) / secsPerDay) / 10) scens r).1.length ≤
        epd * ((t1 - t0) / secsPerDay) :=
      le_trans (bulk_scenario_pass_length_le g st t0 t1 _ scens r) (Nat.div_le_self _ _)
    omega
theorem generate_scenario_events_times (g : Gen) (hg : g.config = shippedConfig)
    (st : GenState) (s : String) (t0 t1 : Time) (n : Nat) (rs : Nat → ScenRand)
    (hse : t0 ≤ t1) (hu : ∀ i, ¬ ((rs i).ts.u < mkRat 3 10)) :
    ∀ e ∈ (generate_scenario_events g st s t0 t1 n rs).1,
      t0 ≤ e.event_time ∧ e.event_time ≤ t1 := by
  unfold generate_scenario_events
  cases h : alistFind g.config.THREAT_SCENARIOS s with
  | none => simp
  | some sc =>
    refine foldl_events_forall _ _ ?hf (List.range n) ([], st) (by simp)
    intro acc i hacc e he
    dsimp only at he
    revert he
    split
    · intro he
      rcases List.mem_append.1 he with hmem | hmem
      · exact hacc e hmem
      · have heq : e = (generate_event g
            { user_cache := alistSet acc.2.user_cache "scenario"
                [scenarioUserStub (pick sc.target_users (rs i).targetPick)],
              ip_cache := acc.2.ip_cache }
            (generate_timestamp t0 t1 (mkRat 3 10) (rs i).ts) (some s) (mkRat 8 10) (rs i).ev).1 := by
          simpa using hmem
        rw [heq, generate_event_time g hg _ _ _ _ _]
        exact generate_timestamp_no_bias_bounds t0 t1 _ (rs i).ts hse (hu i)
    · intro he
      rcases List.mem_append.1 he with hmem | hmem
      · exact hacc e hmem
      · have heq : e = (generate_event g acc.2
            (generate_timestamp t0 t1 (mkRat 3 10) (rs i).ts) (some s) (mkRat 1 10) (rs i).ev).1 := by
          simpa using hmem
        rw [heq, generate_event_time g hg _ _ _ _ _]
        exact generate_timestamp_no_bias_bounds t0 t1 _ (rs i).ts hse (hu i)

theorem bulk_scenario_pass_times (g : Gen) (hg : g.config = shippedConfig)
    (st : GenState) (t0 t1 : Time) (c : Nat) (scens : List String) (r : BulkRand)
    (hse : t0 ≤ t1) (hu : ∀ j i, ¬ ((r.scen j i).ts.u < mkRat 3 10)) :
    ∀ e ∈ (bulk_scenario_pass g st t0 t1 c scens r).1,
      t0 ≤ e.event_time ∧ e.event_time ≤ t1 := by
  unfold bulk_scenario_pass
  refine foldl_events_forall _ _ ?hf scens.enum ([], st) (by simp)
  intro acc p hacc e he
  dsimp only at he
  rcases List.mem_append.1 he with hmem | hmem
  · exact hacc e hmem
  · exact generate_scenario_events_times g hg acc.2 p.2 t0 t1 _ (r.scen p.1) hse
      (hu p.1) e hmem

theorem bulk_normal_pass_times (g : Gen) (hg : g.config = shippedConfig)
    (st : GenState) (t0 t1 : Time) (n : Nat) (r : BulkRand)
    (hse : t0 ≤ t1) (hu : ∀ i, ¬ ((r.norm i).ts.u < mkRat 7 10)) :
    ∀ e ∈ (bulk_normal_pass g st t0 t1 n r).1,
      t0 ≤ e.event_time ∧ e.event_time ≤ t1 := by
  unfold bulk_normal_pass
  refine foldl_events_forall _ _ ?hf (List.range n) ([], st) (by simp)
  intro acc i hacc e he
  dsimp only at he
  rcases List.mem_append.1 he with hmem | hmem
  · exact hacc e hmem
  · have heq : e = (generate_event g acc.2
        (generate_timestamp t0 t1 (mkRat 7 10) (r.norm i).ts) none (mkRat 2 100) (r.norm i).ev).1 := by
      simpa using hmem
    rw [heq, generate_event_time g hg _ _ _ _ _]
    exact generate_timestamp_no_bias_bounds t0 t1 _ (r.norm i).ts hse (hu i)

theorem generate_bulk_events_times (g : Gen) (hg : g.config = shippedConfig)
    (st : GenState) (t0 t1 : Time) (epd : Nat) (scens : List String) (r : BulkRand)
    (hse : t0 ≤ t1)
    (hu1 : ∀ i, ¬ ((r.norm i).ts.u < mkRat 7 10))
    (hu2 : ∀ j i, ¬ ((r.scen j i).ts.u < mkRat 3 10)) :
    ∀ e ∈ (generate_bulk_events g st t0 t1 epd scens r).1,
      t0 ≤ e.event_time ∧ e.event_time ≤ t1 := by
  intro e he
  simp only [generate_bulk_events] at he
  rw [List.mem_mergeSort] at he
  rcases List.mem_append.1 he with h | h
  · exact bulk_normal_pass_times g hg _ t0 t1 _ r hse hu1 e h
  · by_cases hs : scens.isEmpty
    · rw [if_neg (by simp [hs])] at h
      simp at h
    · rw [if_pos (by simp [hs])] at h
      exact bulk_scenario_pass_times g hg st t0 t1 _ scens r hse hu2 e h
/-! ## Concrete inputs used by witnesses and counterexamples -/

def tsR0 : TsRand := { randSec := 0, u := 1, h := 0, m := 0, s := 0 }

def indR0 : IndicatorRand := { ttPick := 0, conf := 0, srcPick := 0 }

def loadR0 : LoadRand :=
  { ipR := fun _ => indR0, domR := fun _ => indR0, hashR := fun _ => indR0,
    hashVal := fun _ => "" }

def g0 : Gen := mkGen loadR0

def userR0 : UserRand :=
  { firstName := "Zed", lastName := "Doe", titlePick := 0, empTypePick := 0,
    clearancePick := 0, locPick := 0 }

def userGenR0 : UserGenRand :=
  { countDraw := fun _ => 0, userDraw := fun _ _ => userR0, choicePick := 0 }

def extIpR0 : ExtIpRand := { idx := 0, fallback := "8.8.8.8" }

def intIpR0 : IntIpRand := { idx := 0 }

def geoR0 : GeoRand := { idx := 0, lat := 0, lon := 0, fakeCity := "X", fakeCountry := "Y" }

def rawR0 : RawRand :=
  { now := 0, methodPick := 0, pathPick := 0, statusPick := 0, uaPick := 0,
    size := 0, flagsPick := 0, len := 0 }

def injR0 : InjectRand :=
  { bytesTransferred := 0, extIp := extIpR0, score := mkRat 8 10, hourDraw := 0,
    minuteDraw := 0, filePick := 0 }

def evR0 : EvRand :=
  { threatU := 1, userR := userGenR0, protoPick := 2, srcPort := 0, tcpPortPick := 0,
    udpPortPick := 0, srcIp := intIpR0, extThreat := extIpR0, intExtU := 1,
    dstIntIp := intIpR0, extBenign := extIpR0, threatScoreThreat := mkRat 7 10,
    threatScoreBenign := mkRat 1 10, bytesSentBig := 0, bytesRecvSmall := 0,
    bytesSentNorm := 0, bytesRecvNorm := 0, duration := 0, statePick := 0,
    logId := "log0", sessionUuid := "sess0000", hostSuffixPick := 0,
    destServicePick := 0, destNum := 0, threatDomPick := 0, legitDomPick := 0,
    uaPick := 0, respThreatPick := 0, respBenignPick := 0, geo := geoR0,
    raw := rawR0, inj := injR0 }

def uZdoe : User :=
  { user_id := "zdoe", username := "zdoe", email := "zdoe@company.com",
    first_name := "Zed", last_name := "Doe", department := "Engineering",
    title := "Software Engineer", employee_type := "full_time",
    security_clearance := "none", location := "headquarters" }

def stC : GenState :=
  { user_cache := [("any", [uZdoe])], ip_cache := [("headquarters", ["10.1.0.1"])] }

def scenR0 : ScenRand := { ts := tsR0, branchU := 1, targetPick := 0, ev := evR0 }

def bulkR0 : BulkRand :=
  { scen := fun _ _ => scenR0, norm := fun _ => { ts := tsR0, ev := evR0 } }


theorem exists_mem_mergeSort_of {α : Type _} (le : α → α → Bool) (l : List α)
    (P : α → Prop) (h : ∃ e ∈ l, P e) : ∃ e ∈ l.mergeSort le, P e := by
  obtain ⟨e, he, hp⟩ := h
  exact ⟨e, List.mem_mergeSort.2 he, hp⟩

/-! ## Claim C1: window containment -/

/-- Random draws exhibiting the inclusive upper bound: the
randint(0, total_seconds) draw comes out at total_seconds itself. -/
def bulkRC : BulkRand :=
  { scen := fun _ _ => scenR0,
    norm := fun _ => { ts := { randSec := 86400, u := 1, h := 0, m := 0, s := 0 }, ev := evR0 } }

/-- Random draws exhibiting the business-hours override moving a
timestamp before start_time: base draw at offset 0 on a window starting
at 10:00, override fires and lowers the hour to 9. -/
def bulkRC2 : BulkRand :=
  { scen := fun _ _ => scenR0,
    norm := fun _ => { ts := { randSec := 0, u := 0, h := 0, m := 0, s := 0 }, ev := evR0 } }

/-- C1 counterexample: the claim start_time less-or-equal event_time
less-than end_time fails on the bulk generator.  With the window from
Monday 10:00:00 to Tuesday 10:00:00 (start 36000, end 122400 in seconds
since a Monday midnight): with draw bulkRC the single generated event
has event_time equal to end_time (randint is inclusive of
total_seconds), violating the strict upper bound; with draw bulkRC2 the
business-hours override rewrites the hour to 9 on the start day,
producing an event_time of 32400, strictly before start_time. -/
theorem claim1_counterexample :
    (36000 ≤ 122400) ∧
    (∃ e ∈ (generate_bulk_events (mkGen loadR0) stC 36000 122400 1 [] bulkRC).1,
      ¬ (e.event_time < 122400)) ∧
    (∃ e ∈ (generate_bulk_events (mkGen loadR0) stC 36000 122400 1 [] bulkRC2).1,
      ¬ (36000 ≤ e.event_time)) := by
  refine ⟨by decide, ?_, ?_⟩
  · exact exists_mem_mergeSort_of _ _ _ (by decide)
  · exact exists_mem_mergeSort_of _ _ _ (by decide)

/-- C1 amended: for start_time less-or-equal end_time, every event whose
timestamp did not receive the business-hours override satisfies
start_time ≤ event_time ≤ end_time (the upper bound is inclusive because
randint(0, total_seconds) is inclusive).  Formally: when the
random.random() draw of every timestamp fails its bias comparison (7/10
for baseline events, 3/10 for scenario events), every event of the bulk
output lies in the closed window.  The scenario engine never moves
event_time under the shipped configuration, so injection does not
affect containment. -/
theorem claim1_window_containment (lr : LoadRand) (st : GenState) (t0 t1 : Time)
    (epd : Nat) (scens : List String) (r : BulkRand) (hse : t0 ≤ t1)
    (hu1 : ∀ i, ¬ ((r.norm i).ts.u < mkRat 7 10))
    (hu2 : ∀ j i, ¬ ((r.scen j i).ts.u < mkRat 3 10)) :
    ∀ e ∈ (generate_bulk_events (mkGen lr) st t0 t1 epd scens r).1,
      t0 ≤ e.event_time ∧ e.event_time ≤ t1 :=
  generate_bulk_events_times (mkGen lr) rfl st t0 t1 epd scens r hse hu1 hu2

/-- C1 witness: the amended containment theorem applied at a concrete
one-day, one-event run whose timestamp draw fails the bias comparison,
instantiated at that run's single event. -/
theorem claim1_witness :
    36000 ≤ (generate_event (mkGen loadR0) stC
        (generate_timestamp 36000 122400 (mkRat 7 10) (bulkR0.norm 0).ts) none
        (mkRat 2 100) (bulkR0.norm 0).ev).1.event_time ∧
    (generate_event (mkGen loadR0) stC
        (generate_timestamp 36000 122400 (mkRat 7 10) (bulkR0.norm 0).ts) none
        (mkRat 2 100) (bulkR0.norm 0).ev).1.event_time ≤ 122400 :=
  claim1_window_containment loadR0 stC 36000 122400 1 [] bulkR0 (by decide)
    (fun _ => (by decide : ¬ ((1 : ℚ) < mkRat 7 10)))
    (fun _ _ => (by decide : ¬ ((1 : ℚ) < mkRat 3 10))) _
    (List.mem_mergeSort.2 (List.Mem.head _))

/-! ## Claim C2: chronological ordering -/

/-- C2: every batch returned by generate_bulk_events is sorted
non-decreasing by event_time: adjacent events satisfy
events[i].event_time ≤ events[i+1].event_time (List.Chain' states
exactly the adjacent-pairs ordering).  The final step of the bulk
generator sorts the concatenated scenario and baseline lists by
event_time, and nothing runs after the sort. -/
theorem claim2_chronological_order (lr : LoadRand) (st : GenState) (t0 t1 : Time)
    (epd : Nat) (scens : List String) (r : BulkRand) :
    List.Chain' (fun a b : Event => a.event_time ≤ b.event_time)
      (generate_bulk_events (mkGen lr) st t0 t1 epd scens r).1 :=
  bulk_sorted (mkGen lr) st t0 t1 epd scens r

/-! ## Claim C3: phantom_exfiltrator malicious branch -/

/-- Event draws with the threat branch taken and the smallest possible
bytes_sent draw. -/
def evRC3 : EvRand := { evR0 with threatU := 0 }

/-- C3 counterexample: a threat event generated under the
phantom_exfiltrator scenario (whose active phase is exfiltration) with
bytes_sent equal to 10000000, outside the claimed
[50000000, 500000000] range.  The event synthesizer draws bytes_sent
from randint(10_000_000, 100_000_000); the scenario engine only inflates
a bytes_transferred key into the 50 to 500 MB range, and network events
carry no such key. -/
theorem claim3_counterexample :
    (evRC3.threatU < mkRat 8 10) ∧
    (generate_event (mkGen loadR0) stC 0 (some "phantom_exfiltrator")
      (mkRat 8 10) evRC3).1.bytes_sent = 10000000 ∧
    ¬ (50000000 ≤ (generate_event (mkGen loadR0) stC 0 (some "phantom_exfiltrator")
      (mkRat 8 10) evRC3).1.bytes_sent) := by
  decide

/-- C3 amended: every network event generated with is_threat true under
the phantom_exfiltrator scenario (whose shipped timeline makes the
exfiltration phase active at every current_time) has bytes_sent in
[10_000_000, 100_000_000] — the range the event synthesizer uses, not
the scenario engine's 50 to 500 MB range, which targets a
bytes_transferred key that network events do not carry — and has
destination_ip equal to one of the threat-intelligence IP indicators. -/
theorem claim3_exfil_branch (lr : LoadRand) (st : GenState) (t : Time) (p : ℚ)
    (r : EvRand) (hth : r.threatU < p) :
    10000000 ≤ (generate_event (mkGen lr) st t (some "phantom_exfiltrator") p r).1.bytes_sent ∧
    (generate_event (mkGen lr) st t (some "phantom_exfiltrator") p r).1.bytes_sent ≤ 100000000 ∧
    (generate_event (mkGen lr) st t (some "phantom_exfiltrator") p r).1.destination_ip
      ∈ malicious_ips := by
  refine ⟨?_, ?_, ?_⟩
  · rw [generate_event_phantom_bytes (mkGen lr) rfl st t p r hth]
    exact randint_lower _ _ _
  · rw [generate_event_phantom_bytes (mkGen lr) rfl st t p r hth]
    exact randint_upper (by norm_num) _
  · rw [generate_event_phantom_dest (mkGen lr) rfl st t p r]
    have hne : threat_ip_list (mkGen lr) ≠ [] := by
      rw [threat_ip_list_mkGen]
      decide
    have hmem := generate_external_ip_malicious_mem (mkGen lr) hne r.inj.extIp
    rw [threat_ip_list_mkGen] at hmem
    exact hmem

/-- C3 witness: the amended theorem at a concrete threat draw. -/
theorem claim3_witness :
    (evRC3.threatU < mkRat 8 10) ∧
    (10000000 ≤ (generate_event (mkGen loadR0) stC 0 (some "phantom_exfiltrator")
        (mkRat 8 10) evRC3).1.bytes_sent ∧
     (generate_event (mkGen loadR0) stC 0 (some "phantom_exfiltrator")
        (mkRat 8 10) evRC3).1.bytes_sent ≤ 100000000 ∧
     (generate_event (mkGen loadR0) stC 0 (some "phantom_exfiltrator")
        (mkRat 8 10) evRC3).1.destination_ip ∈ malicious_ips) :=
  ⟨by decide, claim3_exfil_branch loadR0 stC 0 (mkRat 8 10) evRC3 (by decide)⟩

/-! ## Claim C4: insider_threat scenario application -/

/-- C4: contrary to the claim, applying the scenario engine with
insider_threat returns every event completely unmodified, for every
current_time and every random draw.  The shipped insider_threat
configuration has no timeline key, so the phase scan finds no
qualifying entry and inject_threat_scenario returns early — the
late-night hour shift and the sensitive-file overwrite in its
insider_threat branch are unreachable dead code. -/
theorem claim4_insider_threat_noop (lr : LoadRand) (ev : Event) (t : Time)
    (r : InjectRand) :
    inject_threat_scenario (mkGen lr) ev "insider_threat" t r = ev :=
  inject_insider_eq (mkGen lr) rfl ev t r

/-! ## Claim C5: scenario target-user forcing -/

/-- Scenario draws taking the 80 percent forced-target-user branch. -/
def scenRC5 : Nat → ScenRand :=
  fun _ => { ts := tsR0, branchU := 0, targetPick := 0, ev := evR0 }

/-- C5: contrary to the claim, the forced target user never becomes the
generated event's identity.  In a run where the 0.8-branch fires
(branchU = 0 < 8/10 and target_users is nonempty), the target user
jsmith is written to the reserved scenario cache key, but the emitted
event's user_id is zdoe — the member of the cached any pool — because
generate_event calls generate_user_id with no department and therefore
reads the any key, never the scenario key. -/
theorem claim5_scenario_user_bug :
    phantom_exfiltrator_config.target_users ≠ [] ∧
    ((scenRC5 0).branchU < mkRat 8 10) ∧
    ((generate_scenario_events (mkGen loadR0) stC "phantom_exfiltrator" 0 86400 1
        scenRC5).1.map (fun e => e.user_id)) = ["zdoe"] ∧
    alistFind (generate_scenario_events (mkGen loadR0) stC "phantom_exfiltrator" 0 86400 1
        scenRC5).2.user_cache "scenario" = some [scenarioUserStub "jsmith"] ∧
    "zdoe" ∉ phantom_exfiltrator_config.target_users := by
  decide

/-! ## Claim C6: days-elapsed computation and phase selection -/

/-- C6: the scenario engine computes days_elapsed as current_time minus
(current_time minus duration_days) in whole days, which always equals
duration_days independently of current_time; the active phase is the
last timeline entry whose day does not exceed days_elapsed (the getLast?
of the filtered timeline); and when no entry qualifies the event is
returned unmodified. -/
theorem claim6_timeline_phase :
    (∀ (t : Time) (d : Int), scenario_days_elapsed t d = d) ∧
    (∀ (tl : List TimelineEntry) (d : Int),
      select_phase tl d = (tl.filter (fun ph => decide (ph.day ≤ d))).getLast?) ∧
    (∀ (lr : LoadRand) (ev : Event) (s : String) (t : Time) (r : InjectRand)
       (sc : ScenarioConfig),
      alistFind shippedConfig.THREAT_SCENARIOS s = some sc →
      select_phase sc.timeline (scenario_days_elapsed t sc.duration_days) = none →
      inject_threat_scenario (mkGen lr) ev s t r = ev) := by
  refine ⟨scenario_days_elapsed_eq, select_phase_eq, ?_⟩
  intro lr ev s t r sc hfind hnone
  unfold inject_threat_scenario
  rw [show (mkGen lr).config.THREAT_SCENARIOS = shippedConfig.THREAT_SCENARIOS from rfl,
     hfind]
  simp [hnone]

/-- C6 witness: days_elapsed at an arbitrary time equals the duration;
phase selection on the phantom timeline at elapsed day 10; and the
engine leaving an event unmodified for insider_threat, whose empty
timeline never qualifies. -/
theorem claim6_witness :
    scenario_days_elapsed 123456 45 = 45 ∧
    select_phase phantom_exfiltrator_config.timeline 10 =
      (phantom_exfiltrator_config.timeline.filter
        (fun ph => decide (ph.day ≤ 10))).getLast? ∧
    inject_threat_scenario (mkGen loadR0) default "insider_threat" 77777 injR0 = default :=
  ⟨claim6_timeline_phase.1 123456 45,
   claim6_timeline_phase.2.1 phantom_exfiltrator_config.timeline 10,
   claim6_timeline_phase.2.2 loadR0 default "insider_threat" 77777 injR0
     insider_threat_config (by decide) (by decide)⟩

/-! ## Claim C7: bulk volume -/

/-- C7: the bulk generator returns exactly
events_per_day * (end_time - start_time).days events, scenario-tagged
plus baseline together: unknown scenario names contribute zero scenario
events and the baseline loop fills the difference.  In particular a
zero-length window or zero events_per_day yields the empty sequence,
and the definition is total — no input volume fails. -/
theorem claim7_total_volume (lr : LoadRand) (st : GenState) (t0 t1 : Time)
    (epd : Nat) (scens : List String) (r : BulkRand) :
    (generate_bulk_events (mkGen lr) st t0 t1 epd scens r).1.length =
      epd * ((t1 - t0) / secsPerDay) :=
  generate_bulk_events_length (mkGen lr) st t0 t1 epd scens r

/-! ## Claim C8: web-port coherence -/

/-- C8: for every generated network event, user_agent and response_code
are non-null exactly when destination_port is 80 or 443; ICMP events
(null port) and TCP/UDP events on other ports have both fields null.
The scenario engine never touches these three fields under the shipped
configuration, so the property survives injection. -/
theorem claim8_port_coherence (lr : LoadRand) (st : GenState) (t : Time)
    (sc : Option String) (p : ℚ) (r : EvRand) :
    ((generate_event (mkGen lr) st t sc p r).1.user_agent ≠ none ↔
      ((generate_event (mkGen lr) st t sc p r).1.destination_port = some 80 ∨
       (generate_event (mkGen lr) st t sc p r).1.destination_port = some 443)) ∧
    ((generate_event (mkGen lr) st t sc p r).1.response_code ≠ none ↔
      ((generate_event (mkGen lr) st t sc p r).1.destination_port = some 80 ∨
       (generate_event (mkGen lr) st t sc p r).1.destination_port = some 443)) := by
  obtain ⟨D, ua, rc, hD, hua, hrc⟩ := generate_event_shape (mkGen lr) rfl st t sc p r
  rw [hD, hua, hrc]
  exact ⟨ite_web_ne_none D ua, ite_web_ne_none D rc⟩

/-! ## Claim C9: unknown scenario names -/

/-- C9: a scenario name absent from the configured scenario table leaves
the scenario engine a no-op (the event is returned unmodified) and makes
generate_scenario_events return the empty list with the generator state
untouched. -/
theorem claim9_unknown_scenario :
    (∀ (lr : LoadRand) (ev : Event) (s : String) (t : Time) (r : InjectRand),
      alistFind shippedConfig.THREAT_SCENARIOS s = none →
      inject_threat_scenario (mkGen lr) ev s t r = ev) ∧
    (∀ (lr : LoadRand) (st : GenState) (s : String) (t0 t1 : Time) (n : Nat)
       (rs : Nat → ScenRand),
      alistFind shippedConfig.THREAT_SCENARIOS s = none →
      generate_scenario_events (mkGen lr) st s t0 t1 n rs = ([], st)) := by
  constructor
  · intro lr ev s t r hs
    exact inject_none_eq (mkGen lr) ev t r hs
  · intro lr st s t0 t1 n rs hs
    unfold generate_scenario_events
    rw [show (mkGen lr).config.THREAT_SCENARIOS = shippedConfig.THREAT_SCENARIOS from rfl,
       hs]

/-- C9 witness: both behaviors at the unknown name no_such_scenario. -/
theorem claim9_witness :
    inject_threat_scenario (mkGen loadR0) default "no_such_scenario" 0 injR0 = default ∧
    generate_scenario_events (mkGen loadR0) stC "no_such_scenario" 0 86400 3 scenRC5 =
      ([], stC) :=
  ⟨claim9_unknown_scenario.1 loadR0 default "no_such_scenario" 0 injR0 (by decide),
   claim9_unknown_scenario.2 loadR0 stC "no_such_scenario" 0 86400 3 scenRC5 (by decide)⟩

/-! ## Claim C10: identity pool stability -/

/-- C10: once the identity accessor has a cached pool for a department
key, every call with that key leaves the generator state unchanged (no
regeneration, no growth) and returns a member of that cached pool. -/
theorem claim10_pool_stability (cfg : Config) (st : GenState)
    (department : Option String) (r : UserGenRand) (pool : List User)
    (hpool : alistFind st.user_cache (department.getD "any") = some pool)
    (hne : pool ≠ []) :
    (generate_user_id cfg st department r).2 = st ∧
    (generate_user_id cfg st department r).1 ∈ pool := by
  rw [generate_user_id_hit cfg st department r hpool]
  exact ⟨rfl, pick_mem hne r.choicePick⟩

/-- C10 witness: the stability theorem at a concrete cached state. -/
theorem claim10_witness :
    (generate_user_id shippedConfig stC none userGenR0).2 = stC ∧
    (generate_user_id shippedConfig stC none userGenR0).1 ∈ [uZdoe] :=
  claim10_pool_stability shippedConfig stC none userGenR0 [uZdoe] (by decide) (by decide)
